import Mathlib

/-!
Verification development for the CIS PUMF preprocessing loader
(`src/preprocess.py`).

The program loads statistical survey files with pandas, renames a few
year-specific columns to canonical names, selects a fixed column
allowlist, drops rows carrying missing-value sentinel codes, drops rows
whose age-group code is outside a year-dependent valid set, and
concatenates the per-file tables.

Embedding choices:
* A cell value (`Val`) is either a string code, an integer, or the NaN
  placeholder produced by column alignment.  String equality against
  sentinel codes and integer comparison of the year mirror the Python
  semantics (`'99' != 99`; comparing a string with an int raises
  `TypeError`).
* A `DataFrame` is a column-name list plus a list of rows, each row a
  list of values positionally aligned with the columns.  Pandas'
  integer row index is positional here; `ignore_index=True`
  concatenation is plain list append.
* The filesystem and the Stata parser are external collaborators: the
  model of `load_data` receives the already-parsed frames in file
  discovery order.  `pd.concat` of an empty list raises `ValueError`
  (`"No objects to concatenate"`); on non-empty input it aligns columns
  by first appearance and pads missing cells with NaN.
* Fallible pandas operations (`df[cols]` with a missing column,
  `df['year'].iat[0]` on an empty frame, ordering an incomparable
  value) are modelled with `Except String`.
-/

/-- A scalar cell value of the loaded table. -/
inductive Val where
  | str : String → Val
  | int : Int → Val
  | nan : Val
deriving DecidableEq, Repr, Inhabited

/-- A table: named columns and positionally aligned rows. -/
structure DataFrame where
  columns : List String
  rows : List (List Val)
deriving DecidableEq, Repr, Inhabited

/-- Apply a rename mapping to one column label, leaving unmapped labels
unchanged (the semantics of `df.rename(columns=...)`). -/
def renameWith (m : List (String × String)) (c : String) : String :=
  match m.lookup c with
  | some c2 => c2
  | none => c

/-- The `df.rename(columns=m)` operation: relabels columns, keeps rows. -/
def DataFrame.rename (df : DataFrame) (m : List (String × String)) : DataFrame :=
  ⟨df.columns.map (renameWith m), df.rows⟩

/-- Value of a row at a named column (first matching label), NaN when
the label or the cell is absent. -/
def valAt (columns : List String) (row : List Val) (c : String) : Val :=
  match columns.findIdx? (fun x => x == c) with
  | some i => row.getD i Val.nan
  | none => Val.nan

/-- The `df[cs]` column selection: keeps exactly the listed columns in
the listed order; raises `KeyError` when one is absent. -/
def DataFrame.select (df : DataFrame) (cs : List String) : Except String DataFrame :=
  if cs.all (fun c => df.columns.contains c) = true then
    Except.ok ⟨cs, df.rows.map (fun r => cs.map (valAt df.columns r))⟩
  else Except.error "KeyError"

/-- The `df[df[c] != code]` filter: keeps rows whose value at `c` is not
string-equal to `code`; raises `KeyError` when `c` is absent. -/
def DataFrame.filterNe (df : DataFrame) (c code : String) : Except String DataFrame :=
  if df.columns.contains c = true then
    Except.ok ⟨df.columns,
      df.rows.filter (fun r => decide (valAt df.columns r c ≠ Val.str code))⟩
  else Except.error "KeyError"

/-- The `df[df[c].isin(codes)]` filter: keeps rows whose value at `c`
is one of the given string codes. -/
def DataFrame.filterIsin (df : DataFrame) (c : String) (codes : List String) :
    Except String DataFrame :=
  if df.columns.contains c = true then
    Except.ok ⟨df.columns,
      df.rows.filter (fun r => decide (valAt df.columns r c ∈ codes.map Val.str))⟩
  else Except.error "KeyError"

/-- The `df[c].iat[0]` access: value of the first row at column `c`;
`KeyError` when the column is absent, `IndexError` when there are no
rows. -/
def DataFrame.iat0 (df : DataFrame) (c : String) : Except String Val :=
  if df.columns.contains c = true then
    match df.rows.head? with
    | some r => Except.ok (valAt df.columns r c)
    | none => Except.error "IndexError"
  else Except.error "KeyError"

/-- The fixed column allowlist `cols` of `_read_cis_pumf`
(identifiers, demography, geography, income, household, housing). -/
def cols : List String :=
  ["year", "pumfid", "personid", "fweight",
   "sex", "agegp", "marst", "immst", "yrimmg",
   "prov", "uszgap",
   "ttinc", "atinc", "mtinc", "gtr",
   "hhsize", "hhcomp",
   "dwltyp", "dwtenr", "repa", "suit", "mortg", "mortgm", "condmp", "rentm"]

/-- The rename table `col_renamings`: 2018+ variable names back to their
2012-17 spellings. -/
def col_renamings : List (String × String) :=
  [("marstp", "marst"), ("immstp", "immst"), ("yrimmgp", "yrimmg")]

/-- The `missing_codes` table: per-column sentinel codes for missing
values, in the iteration order of the source dict. -/
def missing_codes : List (String × String) :=
  [("marst", "99"), ("immst", "9"), ("yrimmg", "9"),
   ("dwltyp", "9"), ("dwtenr", "9"), ("suit", "9")]

/-- Two-digit zero-padded rendering of a code, the `f"{i:02d}"` of the
source. -/
def pad2 (i : Nat) : String :=
  if i < 10 then "0" ++ toString i else toString i

/-- Valid age-group codes for 2012-2017: `f"{i:02d}" for i in range(7, 16)`. -/
def agegp_codes_2012_17 : List String := (List.range' 7 9).map pad2

/-- Valid age-group codes for 2018-2022: `f"{i:02d}" for i in range(6, 15)`. -/
def agegp_codes_2018_22 : List String := (List.range' 6 9).map pad2

/-- The chained Python comparison `lo <= v <= hi`: decides the range for
an integer, is false for NaN, and raises `TypeError` for a string. -/
def le_range_check (lo hi : Int) (v : Val) : Except String Bool :=
  match v with
  | Val.int n => Except.ok (decide (lo ≤ n) && decide (n ≤ hi))
  | Val.nan => Except.ok false
  | Val.str _ => Except.error "TypeError"

/-- First half of `_read_cis_pumf`: rename the 2018+ columns, select the
allowlist, and apply every missing-code filter in dict order. -/
def missing_filtered (df0 : DataFrame) : Except String DataFrame := do
  let df1 := df0.rename col_renamings
  let df2 ← df1.select cols
  missing_codes.foldlM (fun d pc => d.filterNe pc.1 pc.2) df2

/-- The `_read_cis_pumf` body after `pd.read_stata`: filter missing
codes, read the reference year from the first remaining row, and keep
only the age-group codes valid for that year's coding scheme. -/
def read_cis_pumf (df0 : DataFrame) : Except String DataFrame := do
  let df3 ← missing_filtered df0
  let year ← df3.iat0 "year"
  let in_range ← le_range_check 2012 2017 year
  if in_range then
    df3.filterIsin "agegp" agegp_codes_2012_17
  else
    df3.filterIsin "agegp" agegp_codes_2018_22

/-- Insert a column label at the end unless already present. -/
def insCol (acc : List String) (c : String) : List String :=
  if acc.contains c = true then acc else acc ++ [c]

/-- Column union in first-appearance order, as `pd.concat` aligns
heterogeneous column sets. -/
def unionCols (ls : List (List String)) : List String :=
  ls.foldl (fun acc cs => cs.foldl insCol acc) []

/-- Re-express a row over a new column list, padding absent columns with
NaN (the alignment `pd.concat` performs). -/
def reindexRow (oldCols : List String) (newCols : List String) (row : List Val) : List Val :=
  newCols.map (valAt oldCols row)

/-- The `pd.concat(dfs, ignore_index=True)` call: raises `ValueError`
on an empty list, otherwise aligns all frames on the column union and
stacks the rows under a fresh dense positional index. -/
def pd_concat (dfs : List DataFrame) : Except String DataFrame :=
  match dfs with
  | [] => Except.error "No objects to concatenate"
  | _ :: _ =>
    let allCols := unionCols (dfs.map DataFrame.columns)
    Except.ok ⟨allCols,
      (dfs.map (fun d => d.rows.map (reindexRow d.columns allCols))).flatten⟩

/-- The `load_data` entry point.  Globbing the directory and parsing
each Stata file are external; the model receives the parsed frames in
file discovery order.  The `tqdm` progress display has no effect on the
result. -/
def load_data (files : List DataFrame) : Except String DataFrame := do
  let dfs ← files.mapM read_cis_pumf
  pd_concat dfs

/-- The claim-side year predicate: the year value is an integer in
[2012, 2017]. -/
def yearIn2012_17 (v : Val) : Bool :=
  match v with
  | Val.int n => decide (2012 ≤ n) && decide (n ≤ 2017)
  | _ => false

/-- Map a canonical (2012-17) column name to its 2018+ spelling; only
the three renamed variables change, every other label (age group
included) is spelled the same in both eras. -/
def to_post_2018 (c : String) : String :=
  if c = "marst" then "marstp"
  else if c = "immst" then "immstp"
  else if c = "yrimmg" then "yrimmgp"
  else c

/-- The same table presented with 2018+ column spellings. -/
def postNamed (df : DataFrame) : DataFrame :=
  ⟨df.columns.map to_post_2018, df.rows⟩

/-- Extract the payload of a successful read; the default is never used
on the success path. -/
def okValue (e : Except String DataFrame) : DataFrame :=
  match e with
  | Except.ok d => d
  | Except.error _ => ⟨[], []⟩

/-! ### Concrete test data

A full 25-cell row aligned with `cols`; the free parameters are the
reference year, the age-group code, and the marital-status code, letting
one constructor express valid rows, sentinel-carrying rows, and rows
with out-of-range age groups.  Every fixed cell avoids the sentinel
codes of `missing_codes`. -/

def mkRow (year : Int) (agegp marst : String) : List Val :=
  [Val.int year, Val.str "h", Val.str "p", Val.int 100,
   Val.str "1", Val.str agegp, Val.str marst, Val.str "1", Val.str "0",
   Val.str "35", Val.str "1",
   Val.int 50000, Val.int 40000, Val.int 45000, Val.int 5000,
   Val.int 2, Val.str "1",
   Val.str "1", Val.str "1", Val.str "1", Val.str "1", Val.str "1",
   Val.int 1200, Val.int 0, Val.int 0]

/-- A 2014 file: five valid rows plus one row dropped by the `marst`
sentinel filter. -/
def exFileA : DataFrame :=
  ⟨cols, [mkRow 2014 "07" "1", mkRow 2014 "08" "1", mkRow 2014 "09" "1",
          mkRow 2014 "10" "1", mkRow 2014 "15" "1", mkRow 2014 "11" "99"]⟩

/-- The filtered output of `exFileA`. -/
def exOutA : DataFrame :=
  ⟨cols, [mkRow 2014 "07" "1", mkRow 2014 "08" "1", mkRow 2014 "09" "1",
          mkRow 2014 "10" "1", mkRow 2014 "15" "1"]⟩

/-- A 2019 file: five valid rows plus one row dropped by the age-group
filter (code 15 is not valid for 2018+). -/
def exFileB : DataFrame :=
  ⟨cols, [mkRow 2019 "06" "1", mkRow 2019 "07" "1", mkRow 2019 "08" "1",
          mkRow 2019 "09" "1", mkRow 2019 "14" "1", mkRow 2019 "15" "1"]⟩

/-- The filtered output of `exFileB`. -/
def exOutB : DataFrame :=
  ⟨cols, [mkRow 2019 "06" "1", mkRow 2019 "07" "1", mkRow 2019 "08" "1",
          mkRow 2019 "09" "1", mkRow 2019 "14" "1"]⟩

/-- Combined output of loading `exFileA` then `exFileB`. -/
def exOutAB : DataFrame :=
  ⟨cols, [mkRow 2014 "07" "1", mkRow 2014 "08" "1", mkRow 2014 "09" "1",
          mkRow 2014 "10" "1", mkRow 2014 "15" "1",
          mkRow 2019 "06" "1", mkRow 2019 "07" "1", mkRow 2019 "08" "1",
          mkRow 2019 "09" "1", mkRow 2019 "14" "1"]⟩

/-- Combined output of loading `exFileB` then `exFileA`. -/
def exOutBA : DataFrame :=
  ⟨cols, [mkRow 2019 "06" "1", mkRow 2019 "07" "1", mkRow 2019 "08" "1",
          mkRow 2019 "09" "1", mkRow 2019 "14" "1",
          mkRow 2014 "07" "1", mkRow 2014 "08" "1", mkRow 2014 "09" "1",
          mkRow 2014 "10" "1", mkRow 2014 "15" "1"]⟩

/-- A 2015 file with ten rows of which exactly one carries the `marst`
sentinel code 99. -/
def exC3file : DataFrame :=
  ⟨cols, [mkRow 2015 "07" "1", mkRow 2015 "08" "1", mkRow 2015 "09" "1",
          mkRow 2015 "10" "1", mkRow 2015 "11" "1", mkRow 2015 "12" "1",
          mkRow 2015 "13" "1", mkRow 2015 "14" "1", mkRow 2015 "15" "1",
          mkRow 2015 "07" "99"]⟩

/-- The filtered output of `exC3file`: nine rows. -/
def exC3out : DataFrame :=
  ⟨cols, [mkRow 2015 "07" "1", mkRow 2015 "08" "1", mkRow 2015 "09" "1",
          mkRow 2015 "10" "1", mkRow 2015 "11" "1", mkRow 2015 "12" "1",
          mkRow 2015 "13" "1", mkRow 2015 "14" "1", mkRow 2015 "15" "1"]⟩

/-- A file whose rows do not share one year value: the first surviving
row is from 2015, a later row from 2019. -/
def exMixed : DataFrame :=
  ⟨cols, [mkRow 2015 "07" "1", mkRow 2019 "15" "1"]⟩

/-- The output the code produces for `exMixed`: the 2015 first row makes
the reader apply the 2012-17 age-group set to every row, so the 2019 row
with code 15 survives. -/
def exMixedOut : DataFrame :=
  ⟨cols, [mkRow 2015 "07" "1", mkRow 2019 "15" "1"]⟩

/-- A file whose only row carries the `marst` sentinel, so the sentinel
filters leave no rows at all. -/
def exC9file : DataFrame :=
  ⟨cols, [mkRow 2015 "07" "99"]⟩

/-- A parsed file missing almost every allowlisted column. -/
def exBad : DataFrame :=
  ⟨["year"], [[Val.int 2015]]⟩

/-! ### Structural lemmas about the embedded operations -/

theorem exBind_ok {α β : Type} {e : Except String α} {f : α → Except String β} {b : β}
    (h : (e >>= f) = Except.ok b) : ∃ a, e = Except.ok a ∧ f a = Except.ok b := by
  cases e with
  | error s => exact Except.noConfusion h
  | ok a => exact ⟨a, rfl, h⟩

theorem select_ok {df : DataFrame} {cs : List String} {out : DataFrame}
    (h : df.select cs = Except.ok out) :
    out.columns = cs ∧ out.rows = df.rows.map (fun r => cs.map (valAt df.columns r)) := by
  unfold DataFrame.select at h
  split at h
  · cases h
    exact ⟨rfl, rfl⟩
  · exact Except.noConfusion h

theorem filterNe_ok {df : DataFrame} {c code : String} {out : DataFrame}
    (h : df.filterNe c code = Except.ok out) :
    out.columns = df.columns ∧
      out.rows = df.rows.filter (fun r => decide (valAt df.columns r c ≠ Val.str code)) := by
  unfold DataFrame.filterNe at h
  split at h
  · cases h
    exact ⟨rfl, rfl⟩
  · exact Except.noConfusion h

theorem filterIsin_ok {df : DataFrame} {c : String} {codes : List String} {out : DataFrame}
    (h : df.filterIsin c codes = Except.ok out) :
    out.columns = df.columns ∧
      out.rows = df.rows.filter (fun r => decide (valAt df.columns r c ∈ codes.map Val.str)) := by
  unfold DataFrame.filterIsin at h
  split at h
  · cases h
    exact ⟨rfl, rfl⟩
  · exact Except.noConfusion h

theorem foldFilter_ok :
    ∀ (ps : List (String × String)) (d out : DataFrame),
      List.foldlM (fun d pc => DataFrame.filterNe d pc.1 pc.2) d ps = Except.ok out →
      out.columns = d.columns ∧ out.rows.Sublist d.rows ∧
        ∀ pc ∈ ps, ∀ r ∈ out.rows, valAt d.columns r pc.1 ≠ Val.str pc.2 := by
  intro ps
  induction ps with
  | nil =>
    intro d out h
    cases h
    exact ⟨rfl, List.Sublist.refl _, by intro pc hpc; cases hpc⟩
  | cons pc0 rest ih =>
    intro d out h
    rw [List.foldlM_cons] at h
    obtain ⟨d1, hd1, hrest⟩ := exBind_ok h
    obtain ⟨hc1, hr1⟩ := filterNe_ok hd1
    obtain ⟨hcols, hsub, hmem⟩ := ih d1 out hrest
    refine ⟨hcols.trans hc1, ?_, ?_⟩
    · rw [hr1] at hsub
      exact hsub.trans (List.filter_sublist _)
    · intro pc hpc r hr
      rcases List.mem_cons.mp hpc with heq | htl
      · subst heq
        have hr' : r ∈ d1.rows := hsub.subset hr
        rw [hr1] at hr'
        have := (List.mem_filter.mp hr').2
        simpa using this
      · have := hmem pc htl r hr
        rwa [hc1] at this

theorem missing_filtered_ok {df d : DataFrame}
    (h : missing_filtered df = Except.ok d) :
    d.columns = cols ∧
      d.rows.Sublist
        (df.rows.map (fun r => cols.map (valAt (df.rename col_renamings).columns r))) ∧
      ∀ pc ∈ missing_codes, ∀ r ∈ d.rows, valAt cols r pc.1 ≠ Val.str pc.2 := by
  unfold missing_filtered at h
  obtain ⟨d2, hsel, hfold⟩ := exBind_ok h
  obtain ⟨hc2, hr2⟩ := select_ok hsel
  obtain ⟨hcols, hsub, hmem⟩ := foldFilter_ok missing_codes d2 d hfold
  refine ⟨hcols.trans hc2, ?_, ?_⟩
  · rw [hr2] at hsub
    exact hsub
  · intro pc hpc r hr
    have := hmem pc hpc r hr
    rwa [hc2] at this

theorem row_mem_proj {df d : DataFrame}
    (h : missing_filtered df = Except.ok d) {r : List Val} (hr : r ∈ d.rows) :
    ∃ r0 ∈ df.rows, r = cols.map (valAt (df.rename col_renamings).columns r0) := by
  obtain ⟨-, hsub, -⟩ := missing_filtered_ok h
  have := hsub.subset hr
  obtain ⟨r0, hr0, heq⟩ := List.mem_map.mp this
  exact ⟨r0, hr0, heq.symm⟩

theorem valAt_cols_map_year (f : String → Val) :
    valAt cols (cols.map f) "year" = f "year" := rfl

theorem valAt_cols_map_agegp (f : String → Val) :
    valAt cols (cols.map f) "agegp" = f "agegp" := rfl

theorem read_ok_structure {df out : DataFrame}
    (h : read_cis_pumf df = Except.ok out) :
    ∃ d3 y b, missing_filtered df = Except.ok d3 ∧
      d3.iat0 "year" = Except.ok y ∧
      le_range_check 2012 2017 y = Except.ok b ∧
      d3.filterIsin "agegp"
        (if b then agegp_codes_2012_17 else agegp_codes_2018_22) = Except.ok out := by
  unfold read_cis_pumf at h
  obtain ⟨d3, hd3, h⟩ := exBind_ok h
  obtain ⟨y, hy, h⟩ := exBind_ok h
  obtain ⟨b, hb, h⟩ := exBind_ok h
  refine ⟨d3, y, b, hd3, hy, hb, ?_⟩
  cases b
  · simpa using h
  · simpa using h

theorem read_ok_main {df out : DataFrame}
    (h : read_cis_pumf df = Except.ok out) :
    out.columns = cols ∧
      out.rows.Sublist
        (df.rows.map (fun r => cols.map (valAt (df.rename col_renamings).columns r))) ∧
      ∀ pc ∈ missing_codes, ∀ r ∈ out.rows, valAt cols r pc.1 ≠ Val.str pc.2 := by
  obtain ⟨d3, y, b, hd3, hy, hb, hfin⟩ := read_ok_structure h
  obtain ⟨hcols, hsub, hmem⟩ := missing_filtered_ok hd3
  obtain ⟨hc, hr⟩ := filterIsin_ok hfin
  have hsubout : out.rows.Sublist d3.rows := by
    rw [hr]
    exact List.filter_sublist _
  refine ⟨hc.trans hcols, hsubout.trans hsub, ?_⟩
  intro pc hpc r hrr
  exact hmem pc hpc r (hsubout.subset hrr)

theorem read_ok_row_length {df out : DataFrame}
    (h : read_cis_pumf df = Except.ok out) :
    ∀ r ∈ out.rows, r.length = 25 := by
  obtain ⟨-, hsub, -⟩ := read_ok_main h
  intro r hr
  have := hsub.subset hr
  obtain ⟨r0, -, heq⟩ := List.mem_map.mp this
  rw [← heq]
  simp [cols]

/-! ### Concatenation lemmas -/

theorem insAll_self_cols : cols.foldl insCol cols = cols := by decide

theorem insAll_nil_cols : cols.foldl insCol [] = cols := by decide

theorem unionCols_aux :
    ∀ (ls : List (List String)), (∀ x ∈ ls, x = cols) →
      ls.foldl (fun acc cs => cs.foldl insCol acc) cols = cols := by
  intro ls
  induction ls with
  | nil => intro _; rfl
  | cons x tl ih =>
    intro hx
    have hx0 : x = cols := hx x (List.mem_cons_self x tl)
    subst hx0
    have : ∀ y ∈ tl, y = cols := fun y hy => hx y (List.mem_cons_of_mem _ hy)
    simpa [insAll_self_cols] using ih this

theorem unionCols_const {ls : List (List String)} (hne : ls ≠ [])
    (h : ∀ x ∈ ls, x = cols) : unionCols ls = cols := by
  cases ls with
  | nil => exact absurd rfl hne
  | cons x tl =>
    have hx0 : x = cols := h x (List.mem_cons_self x tl)
    subst hx0
    have htl : ∀ y ∈ tl, y = cols := fun y hy => h y (List.mem_cons_of_mem _ hy)
    unfold unionCols
    rw [List.foldl_cons, insAll_nil_cols]
    exact unionCols_aux tl htl

theorem cols_findIdx_self :
    ∀ i : Fin 25, cols.findIdx? (fun x => x == cols.get i) = some i.val := by decide

theorem reindexRow_id {r : List Val} (hlen : r.length = 25) :
    reindexRow cols cols r = r := by
  unfold reindexRow
  apply List.ext_getElem
  · simp [cols, hlen]
  · intro i h1 h2
    have hi : i < 25 := by simpa [cols] using h1
    have hfind := cols_findIdx_self ⟨i, hi⟩
    rw [List.getElem_map]
    show valAt cols r (cols.get ⟨i, hi⟩) = r.get ⟨i, by omega⟩
    unfold valAt
    rw [hfind]
    exact List.getD_eq_getElem r Val.nan (by omega)

theorem pd_concat_aligned {dfs : List DataFrame} (hne : dfs ≠ [])
    (hcols : ∀ d ∈ dfs, d.columns = cols)
    (hlen : ∀ d ∈ dfs, ∀ r ∈ d.rows, r.length = 25) :
    pd_concat dfs = Except.ok ⟨cols, (dfs.map DataFrame.rows).flatten⟩ := by
  cases dfs with
  | nil => exact absurd rfl hne
  | cons d0 tl =>
    have hu : unionCols ((d0 :: tl).map DataFrame.columns) = cols := by
      apply unionCols_const
      · simp
      · intro x hx
        obtain ⟨d, hd, hdx⟩ := List.mem_map.mp hx
        rw [← hdx]
        exact hcols d hd
    have hred : pd_concat (d0 :: tl) =
        Except.ok ⟨unionCols ((d0 :: tl).map DataFrame.columns),
          ((d0 :: tl).map (fun d => d.rows.map
            (reindexRow d.columns (unionCols ((d0 :: tl).map DataFrame.columns))))).flatten⟩ :=
      rfl
    rw [hred, hu]
    congr 2
    apply congrArg List.flatten
    apply List.map_congr_left
    intro d hd
    have hdc : d.columns = cols := hcols d hd
    have : d.rows.map (reindexRow d.columns cols) = d.rows.map id := by
      apply List.map_congr_left
      intro r hr
      rw [hdc]
      exact reindexRow_id (hlen d hd r hr)
    rw [this, List.map_id]

/-! ### Year and age-group selection lemmas -/

theorem iat0_ok {df : DataFrame} {c : String} {y : Val}
    (h : df.iat0 c = Except.ok y) :
    ∃ r, df.rows.head? = some r ∧ y = valAt df.columns r c := by
  unfold DataFrame.iat0 at h
  split at h
  · cases hh : df.rows.head? with
    | none =>
      rw [hh] at h
      exact Except.noConfusion h
    | some r =>
      rw [hh] at h
      cases h
      exact ⟨r, rfl, rfl⟩
  · exact Except.noConfusion h

theorem head_mem_of_head? {α : Type} {l : List α} {a : α} (h : l.head? = some a) : a ∈ l :=
  List.mem_of_mem_head? (by rw [h]; rfl)

theorem le_range_check_ok {y0 : Val} {b : Bool}
    (h : le_range_check 2012 2017 y0 = Except.ok b) : b = yearIn2012_17 y0 := by
  cases y0 with
  | str s => exact Except.noConfusion h
  | int n =>
    cases h
    rfl
  | nan =>
    cases h
    rfl

theorem d3_year_const {df d3 : DataFrame} {y0 : Val}
    (hd3 : missing_filtered df = Except.ok d3)
    (hy : ∀ r0 ∈ df.rows, valAt (df.rename col_renamings).columns r0 "year" = y0) :
    ∀ r ∈ d3.rows, valAt cols r "year" = y0 := by
  intro r hr
  obtain ⟨r0, hr0, heq⟩ := row_mem_proj hd3 hr
  rw [heq, valAt_cols_map_year]
  exact hy r0 hr0

/-- Per-file form of the year/age-group invariant: when every row of the
parsed file carries the same year value, every surviving row's age-group
code lies in the set selected by that year. -/
theorem read_uniform_year_agegp {df out : DataFrame} {y0 : Val}
    (hy : ∀ r0 ∈ df.rows, valAt (df.rename col_renamings).columns r0 "year" = y0)
    (h : read_cis_pumf df = Except.ok out) :
    ∀ r ∈ out.rows,
      if yearIn2012_17 (valAt cols r "year") = true
      then valAt cols r "agegp" ∈ agegp_codes_2012_17.map Val.str
      else valAt cols r "agegp" ∈ agegp_codes_2018_22.map Val.str := by
  obtain ⟨d3, y, b, hd3, hiat, hrange, hfin⟩ := read_ok_structure h
  have hdcols : d3.columns = cols := (missing_filtered_ok hd3).1
  have hyear : ∀ r ∈ d3.rows, valAt cols r "year" = y0 := d3_year_const hd3 hy
  obtain ⟨rh, hrh, hyv⟩ := iat0_ok hiat
  have hy0 : y = y0 := by
    rw [hyv, hdcols]
    exact hyear rh (head_mem_of_head? hrh)
  subst hy0
  have hb : b = yearIn2012_17 y := le_range_check_ok hrange
  obtain ⟨hoc, hor⟩ := filterIsin_ok hfin
  intro r hr
  rw [hor] at hr
  obtain ⟨hrd3, hpred⟩ := List.mem_filter.mp hr
  have hpred' := of_decide_eq_true hpred
  rw [hdcols] at hpred'
  have hry : valAt cols r "year" = y := hyear r hrd3
  rw [hry, ← hb]
  cases b with
  | true => simpa using hpred'
  | false => simpa using hpred'

/-! ### Renaming commutation (pre- vs post-2018 column names) -/

theorem renameWith_to_post (c : String) :
    renameWith col_renamings (to_post_2018 c) = renameWith col_renamings c := by
  unfold to_post_2018
  split
  · next h => subst h; decide
  · split
    · next h => subst h; decide
    · split
      · next h => subst h; decide
      · rfl

theorem rename_postNamed (df : DataFrame) :
    (postNamed df).rename col_renamings = df.rename col_renamings := by
  unfold postNamed DataFrame.rename
  simp only [List.map_map]
  congr 1
  apply List.map_congr_left
  intro a _
  exact renameWith_to_post a

theorem missing_filtered_postNamed (df : DataFrame) :
    missing_filtered (postNamed df) = missing_filtered df := by
  unfold missing_filtered
  rw [rename_postNamed]

/-! ### Permutation lemmas -/

theorem perm_flatten {α : Type} {l1 l2 : List (List α)} (h : l1.Perm l2) :
    l1.flatten.Perm l2.flatten := by
  induction h with
  | nil => exact List.Perm.refl _
  | cons x h ih =>
    simpa using ih.append_left x
  | swap x y l =>
    simp only [List.flatten_cons]
    rw [← List.append_assoc, ← List.append_assoc]
    exact List.perm_append_comm.append_right _
  | trans h1 h2 ih1 ih2 => exact ih1.trans ih2

theorem mapM_read_eq_map :
    ∀ {files dfs : List DataFrame},
      files.mapM read_cis_pumf = Except.ok dfs →
      dfs = files.map (fun f => okValue (read_cis_pumf f)) := by
  intro files
  induction files with
  | nil =>
    intro dfs h
    cases h
    rfl
  | cons f0 tl ih =>
    intro dfs h
    rw [List.mapM_cons] at h
    obtain ⟨d0, hd0, h⟩ := exBind_ok h
    obtain ⟨ds, hds, h⟩ := exBind_ok h
    cases h
    rw [List.map_cons, ← ih hds, hd0]
    rfl

/-! ### `load_data` lemmas -/

theorem mapM_read_ok :
    ∀ {files : List DataFrame} {dfs : List DataFrame},
      files.mapM read_cis_pumf = Except.ok dfs →
      (∀ d ∈ dfs, ∃ f ∈ files, read_cis_pumf f = Except.ok d) ∧
        (∀ f ∈ files, ∃ d ∈ dfs, read_cis_pumf f = Except.ok d) := by
  intro files
  induction files with
  | nil =>
    intro dfs h
    cases h
    refine ⟨?_, ?_⟩
    · intro d hd
      cases hd
    · intro f hf
      cases hf
  | cons f0 tl ih =>
    intro dfs h
    rw [List.mapM_cons] at h
    obtain ⟨d0, hd0, h⟩ := exBind_ok h
    obtain ⟨ds, hds, h⟩ := exBind_ok h
    cases h
    obtain ⟨h1, h2⟩ := ih hds
    constructor
    · intro d hd
      rcases List.mem_cons.mp hd with heq | htl
      · exact ⟨f0, List.mem_cons_self _ _, heq ▸ hd0⟩
      · obtain ⟨f, hf, hfd⟩ := h1 d htl
        exact ⟨f, List.mem_cons_of_mem _ hf, hfd⟩
    · intro f hf
      rcases List.mem_cons.mp hf with heq | htl
      · exact ⟨d0, List.mem_cons_self _ _, heq ▸ hd0⟩
      · obtain ⟨d, hd, hfd⟩ := h2 f htl
        exact ⟨d, List.mem_cons_of_mem _ hd, hfd⟩

theorem mapM_read_error :
    ∀ {files : List DataFrame} {f : DataFrame}, f ∈ files →
      (∃ e, read_cis_pumf f = Except.error e) →
      ∃ e, files.mapM read_cis_pumf = Except.error e := by
  intro files
  induction files with
  | nil => intro f hf; cases hf
  | cons f0 tl ih =>
    intro f hf herr
    rw [List.mapM_cons]
    rcases List.mem_cons.mp hf with heq | htl
    · obtain ⟨e, he⟩ := herr
      subst heq
      rw [he]
      exact ⟨e, rfl⟩
    · obtain ⟨e, he⟩ := ih htl herr
      cases h0 : read_cis_pumf f0 with
      | error s => exact ⟨s, rfl⟩
      | ok d0 =>
        refine ⟨e, ?_⟩
        show (Except.ok d0 >>= fun x =>
          tl.mapM read_cis_pumf >>= fun xs => pure (x :: xs)) = Except.error e
        show (tl.mapM read_cis_pumf >>= fun xs => pure (d0 :: xs)) = Except.error e
        rw [he]
        rfl

theorem load_ok_main {files : List DataFrame} {out : DataFrame}
    (h : load_data files = Except.ok out) :
    ∃ dfs, files.mapM read_cis_pumf = Except.ok dfs ∧
      (∀ d ∈ dfs, d.columns = cols) ∧
      out.columns = cols ∧
      out.rows = (dfs.map DataFrame.rows).flatten := by
  unfold load_data at h
  obtain ⟨dfs, hdfs, hcat⟩ := exBind_ok h
  have hne : dfs ≠ [] := by
    intro hnil
    subst hnil
    exact Except.noConfusion hcat
  obtain ⟨h1, -⟩ := mapM_read_ok hdfs
  have hcols : ∀ d ∈ dfs, d.columns = cols := by
    intro d hd
    obtain ⟨f, -, hfd⟩ := h1 d hd
    exact (read_ok_main hfd).1
  have hlens : ∀ d ∈ dfs, ∀ r ∈ d.rows, r.length = 25 := by
    intro d hd
    obtain ⟨f, -, hfd⟩ := h1 d hd
    exact read_ok_row_length hfd
  have := pd_concat_aligned hne hcols hlens
  rw [this] at hcat
  cases hcat
  exact ⟨dfs, hdfs, hcols, rfl, rfl⟩

/-! ### Claim theorems -/

/-- C1 (amended): for every output row of `load_data`, the set of
columns equals exactly the fixed column allowlist, in the fixed order
given by the allowlist (no other columns, none missing) — and that
allowlist has 25 entries, not the 24 the claim states. -/
theorem claim_C1_allowlist_columns (files : List DataFrame) (out : DataFrame)
    (h : load_data files = Except.ok out) :
    out.columns = cols ∧ cols.length = 25 ∧ ∀ r ∈ out.rows, r.length = 25 := by
  obtain ⟨dfs, hdfs, hcols, hoc, hrows⟩ := load_ok_main h
  refine ⟨hoc, by decide, ?_⟩
  intro r hr
  rw [hrows] at hr
  obtain ⟨rl, hrl, hrin⟩ := List.mem_flatten.mp hr
  obtain ⟨d, hd, hdr⟩ := List.mem_map.mp hrl
  obtain ⟨f, -, hfd⟩ := (mapM_read_ok hdfs).1 d hd
  exact read_ok_row_length hfd r (hdr ▸ hrin)

/-- C1 counterexample: the fixed allowlist the output schema equals has
25 columns, so no output's column list is a 24-column list as the claim
states. -/
theorem claim_C1_counterexample :
    load_data [exFileA] = Except.ok exOutA ∧
      exOutA.columns.length = 25 ∧ exOutA.columns.length ≠ 24 :=
  ⟨rfl, by decide, by decide⟩

/-- C1 witness: the amended claim instantiated on a concrete load. -/
theorem claim_C1_witness : exOutA.columns = cols ∧ cols.length = 25 :=
  ⟨(claim_C1_allowlist_columns [exFileA] exOutA rfl).1,
   (claim_C1_allowlist_columns [exFileA] exOutA rfl).2.1⟩

/-- C2 (amended): provided every input file's rows share a single year
value (the implicit data invariant the code relies on), every output
row's age-group code is in the 2012-2017 valid set if the row's year is
in [2012, 2017], else in the 2018-2022 valid set — for every year value,
regardless of magnitude. -/
theorem claim_C2_year_agegp (files : List DataFrame) (out : DataFrame)
    (hy : ∀ f ∈ files, ∃ y0, ∀ r0 ∈ f.rows,
      valAt (f.rename col_renamings).columns r0 "year" = y0)
    (h : load_data files = Except.ok out) :
    ∀ r ∈ out.rows,
      if yearIn2012_17 (valAt cols r "year") = true
      then valAt cols r "agegp" ∈ agegp_codes_2012_17.map Val.str
      else valAt cols r "agegp" ∈ agegp_codes_2018_22.map Val.str := by
  intro r hr
  obtain ⟨dfs, hdfs, -, -, hrows⟩ := load_ok_main h
  rw [hrows] at hr
  obtain ⟨rl, hrl, hrin⟩ := List.mem_flatten.mp hr
  obtain ⟨d, hd, hdr⟩ := List.mem_map.mp hrl
  obtain ⟨f, hf, hfd⟩ := (mapM_read_ok hdfs).1 d hd
  obtain ⟨y0, hy0⟩ := hy f hf
  exact read_uniform_year_agegp hy0 hfd r (hdr ▸ hrin)

/-- C2 counterexample: the claim as stated (the set is selected by each
row's own year) fails on a file with mixed years.  The first surviving
row is from 2015, so the 2012-17 code set is applied to the whole file,
and a 2019 row with age-group code 15 — valid only in the 2012-17
coding — survives even though 15 is not in the 2018-22 set its own year
selects. -/
theorem claim_C2_counterexample :
    load_data [exMixed] = Except.ok exMixedOut ∧
      mkRow 2019 "15" "1" ∈ exMixedOut.rows ∧
      yearIn2012_17 (valAt cols (mkRow 2019 "15" "1") "year") = false ∧
      valAt cols (mkRow 2019 "15" "1") "agegp" ∉ agegp_codes_2018_22.map Val.str :=
  ⟨rfl, by decide, by decide, by decide⟩

/-- C2 witness: the amended claim instantiated on a uniform-year file
and one of its output rows. -/
theorem claim_C2_witness :
    if yearIn2012_17 (valAt cols (mkRow 2014 "07" "1") "year") = true
    then valAt cols (mkRow 2014 "07" "1") "agegp" ∈ agegp_codes_2012_17.map Val.str
    else valAt cols (mkRow 2014 "07" "1") "agegp" ∈ agegp_codes_2018_22.map Val.str :=
  claim_C2_year_agegp [exFileA] exOutA
    (by
      intro f hf
      rw [List.mem_singleton] at hf
      subst hf
      exact ⟨Val.int 2014, by decide⟩)
    rfl (mkRow 2014 "07" "1") (by decide)

/-- C3: for every output row and every (column, sentinel) pair in the
missing-value table, the row's value in that column is not string-equal
to the sentinel; and on a single 2015 file of 10 rows with exactly one
`marst = 99` row, the output has 9 rows, none with `marst = 99`. -/
theorem claim_C3_sentinels :
    (∀ files out, load_data files = Except.ok out →
      ∀ pc ∈ missing_codes, ∀ r ∈ out.rows, valAt cols r pc.1 ≠ Val.str pc.2) ∧
      load_data [exC3file] = Except.ok exC3out ∧
      exC3out.rows.length = 9 ∧
      ∀ r ∈ exC3out.rows, valAt cols r "marst" ≠ Val.str "99" := by
  refine ⟨?_, rfl, by decide, by decide⟩
  intro files out h pc hpc r hr
  obtain ⟨dfs, hdfs, -, -, hrows⟩ := load_ok_main h
  rw [hrows] at hr
  obtain ⟨rl, hrl, hrin⟩ := List.mem_flatten.mp hr
  obtain ⟨d, hd, hdr⟩ := List.mem_map.mp hrl
  obtain ⟨f, -, hfd⟩ := (mapM_read_ok hdfs).1 d hd
  exact (read_ok_main hfd).2.2 pc hpc r (hdr ▸ hrin)

/-- C3 witness: the sentinel invariant instantiated on a concrete load
and output row. -/
theorem claim_C3_witness :
    valAt cols (mkRow 2015 "07" "1") "marst" ≠ Val.str "99" :=
  claim_C3_sentinels.1 [exC3file] exC3out rfl ("marst", "99") (by decide)
    (mkRow 2015 "07" "1") (by decide)

/-- C4: with zero matching files, `load_data` concatenates zero tables,
which raises pandas' clear `ValueError`; it never silently produces a
misleading non-empty result. -/
theorem claim_C4_zero_files :
    load_data [] = Except.error "No objects to concatenate" := rfl

set_option maxRecDepth 4000 in
/-- C5 (amended): the result of `load_data` is the concatenation of the
per-file filtered tables, row order equal to file discovery order then
within-file order, under a fresh dense positional index; for two files
(years 2014 and 2019) each producing 5 valid rows, the combined output
has 10 rows of 25 (not 24) columns each. -/
theorem claim_C5_concatenation :
    (∀ files out, load_data files = Except.ok out →
      ∃ dfs, files.mapM read_cis_pumf = Except.ok dfs ∧
        out.rows = (dfs.map DataFrame.rows).flatten) ∧
      load_data [exFileA, exFileB] = Except.ok exOutAB ∧
      exOutAB.rows.length = 10 ∧
      ∀ r ∈ exOutAB.rows, r.length = 25 := by
  refine ⟨?_, rfl, by decide, by decide⟩
  intro files out h
  obtain ⟨dfs, hdfs, -, -, hrows⟩ := load_ok_main h
  exact ⟨dfs, hdfs, hrows⟩

set_option maxRecDepth 4000 in
/-- C5 counterexample: in the two-file scenario the combined output has
10 rows, but each row has 25 cells, not the 24 the claim states. -/
theorem claim_C5_counterexample :
    load_data [exFileA, exFileB] = Except.ok exOutAB ∧
      exOutAB.rows.length = 10 ∧
      (exOutAB.rows.getD 0 []).length ≠ 24 :=
  ⟨rfl, by decide, by decide⟩

set_option maxRecDepth 4000 in
/-- C5 witness: the concatenation equation instantiated on the two-file
scenario. -/
theorem claim_C5_witness :
    ∃ dfs, [exFileA, exFileB].mapM read_cis_pumf = Except.ok dfs ∧
      exOutAB.rows = (dfs.map DataFrame.rows).flatten :=
  claim_C5_concatenation.1 [exFileA, exFileB] exOutAB rfl

/-- C6: if a parsed file lacks an allowlisted column even after
renaming, the per-file reader fails with a schema error, and a batch
containing that file makes `load_data` fail with no partial result. -/
theorem claim_C6_schema_error (df : DataFrame) (files : List DataFrame) (c : String)
    (hc : c ∈ cols) (hmiss : (df.rename col_renamings).columns.contains c = false)
    (hmem : df ∈ files) :
    (∃ e, read_cis_pumf df = Except.error e) ∧
      ∃ e, load_data files = Except.error e := by
  have hall : cols.all (fun x => (df.rename col_renamings).columns.contains x) = false := by
    rw [List.all_eq_false]
    exact ⟨c, hc, by rw [hmiss]; exact Bool.false_ne_true⟩
  have hsel : (df.rename col_renamings).select cols = Except.error "KeyError" := by
    unfold DataFrame.select
    rw [hall]
    rfl
  have hmf : missing_filtered df = Except.error "KeyError" := by
    unfold missing_filtered
    show ((df.rename col_renamings).select cols >>= fun df2 =>
      List.foldlM (fun d pc => d.filterNe pc.1 pc.2) df2 missing_codes) =
        Except.error "KeyError"
    rw [hsel]
    rfl
  have hread : read_cis_pumf df = Except.error "KeyError" := by
    unfold read_cis_pumf
    rw [hmf]
    rfl
  refine ⟨⟨"KeyError", hread⟩, ?_⟩
  obtain ⟨e, he⟩ := mapM_read_error hmem ⟨"KeyError", hread⟩
  refine ⟨e, ?_⟩
  unfold load_data
  rw [he]
  rfl

/-- C6 witness: a file exposing only a `year` column aborts both the
per-file reader and the whole batch. -/
theorem claim_C6_witness :
    (∃ e, read_cis_pumf exBad = Except.error e) ∧
      ∃ e, load_data [exBad] = Except.error e :=
  claim_C6_schema_error exBad [exBad] "pumfid" (by decide) (by decide)
    (List.mem_singleton.mpr rfl)

/-- C7: column renaming is applied before allowlist selection, so a file
whose renamed columns carry the post-2018 names produces exactly the
same output (schema and rows) as the same file using the pre-2018
names. -/
theorem claim_C7_rename_before_select (df : DataFrame) :
    read_cis_pumf (postNamed df) = read_cis_pumf df := by
  unfold read_cis_pumf
  rw [missing_filtered_postNamed]

/-- C8: loading the same unchanged set of files twice produces tables
with identical content — the same multiset of rows with the same values
and the same column schema — even when filesystem enumeration presents
the files in a different order. -/
theorem claim_C8_content_determinism (files1 files2 : List DataFrame)
    (hp : files1.Perm files2) (out1 out2 : DataFrame)
    (h1 : load_data files1 = Except.ok out1)
    (h2 : load_data files2 = Except.ok out2) :
    out1.columns = out2.columns ∧ out1.rows.Perm out2.rows := by
  obtain ⟨dfs1, hdfs1, -, hoc1, hrows1⟩ := load_ok_main h1
  obtain ⟨dfs2, hdfs2, -, hoc2, hrows2⟩ := load_ok_main h2
  refine ⟨hoc1.trans hoc2.symm, ?_⟩
  rw [hrows1, hrows2, mapM_read_eq_map hdfs1, mapM_read_eq_map hdfs2,
    List.map_map, List.map_map]
  exact perm_flatten (hp.map _)

set_option maxRecDepth 4000 in
/-- C8 witness: the two-file batch loaded in both enumeration orders
yields permuted rows and an identical schema. -/
theorem claim_C8_witness :
    exOutAB.columns = exOutBA.columns ∧ exOutAB.rows.Perm exOutBA.rows :=
  claim_C8_content_determinism [exFileA, exFileB] [exFileB, exFileA]
    (List.Perm.swap exFileB exFileA []) exOutAB exOutBA rfl rfl

/-- C9: when the sentinel filters remove every row of a file, the
per-file reader does not return an empty table — reading the reference
year indexes the first element of an empty column, so the reader raises
and any `load_data` batch containing the file fails. -/
theorem claim_C9_empty_after_sentinels (df d : DataFrame)
    (hmf : missing_filtered df = Except.ok d) (hempty : d.rows = []) :
    (∃ e, read_cis_pumf df = Except.error e) ∧
      ∀ files, df ∈ files → ∃ e, load_data files = Except.error e := by
  have hiat : d.iat0 "year" = Except.error "IndexError" := by
    unfold DataFrame.iat0
    rw [(missing_filtered_ok hmf).1, hempty]
    rfl
  have hread : read_cis_pumf df = Except.error "IndexError" := by
    unfold read_cis_pumf
    rw [hmf]
    show (d.iat0 "year" >>= fun year =>
      le_range_check 2012 2017 year >>= fun in_range =>
        if in_range = true then d.filterIsin "agegp" agegp_codes_2012_17
        else d.filterIsin "agegp" agegp_codes_2018_22) = Except.error "IndexError"
    rw [hiat]
    rfl
  refine ⟨⟨"IndexError", hread⟩, ?_⟩
  intro files hmem
  obtain ⟨e, he⟩ := mapM_read_error hmem ⟨"IndexError", hread⟩
  refine ⟨e, ?_⟩
  unfold load_data
  rw [he]
  rfl

/-- C9 witness: a one-row file whose only row carries the `marst`
sentinel makes the reader and the batch fail. -/
theorem claim_C9_witness :
    (∃ e, read_cis_pumf exC9file = Except.error e) ∧
      ∃ e, load_data [exC9file] = Except.error e :=
  ⟨(claim_C9_empty_after_sentinels exC9file ⟨cols, []⟩ rfl rfl).1,
   (claim_C9_empty_after_sentinels exC9file ⟨cols, []⟩ rfl rfl).2 [exC9file]
     (List.mem_singleton.mpr rfl)⟩

/-- C10: filtering only drops rows and never alters values — the
per-file reader's output rows form a sublist (same relative order, each
row unchanged) of the parsed input rows projected, after renaming, onto
the allowlist columns. -/
theorem claim_C10_filter_only_drops (df out : DataFrame)
    (h : read_cis_pumf df = Except.ok out) :
    out.rows.Sublist
      (df.rows.map (fun r => cols.map (valAt (df.rename col_renamings).columns r))) :=
  (read_ok_main h).2.1

/-- C10 witness: the sublist property on a concrete file with one
dropped row. -/
theorem claim_C10_witness :
    exOutA.rows.Sublist
      (exFileA.rows.map (fun r => cols.map (valAt (exFileA.rename col_renamings).columns r))) :=
  claim_C10_filter_only_drops exFileA exOutA rfl
